import Mathlib

/-!
Shallow embedding of the resonance-mind-forge visualization demo.

The repository is a client-side React application.  The parts relevant to the
claims are:

* `ASISimulator.tsx` — top-level state: slider parameters, a timer-driven
  `simulationTime`, and the derived display metrics computed by
  `updateMetrics`, reset by `toggleSimulation` / `resetSimulation`.
* `ResonanceVisualization` (src/unnamed/part_000) — random resonance points,
  regenerated when the `resonancePoints` prop changes, drawn by an
  animation loop.
* `AgentNetwork` (src/unnamed/part_001) — agents laid out on a circle with a
  wrapped-distance-2 connection list, animated similarly.
* `IntelligenceGrowthChart` (src/unnamed/part_002) — accumulates data points
  and redraws a chart each render.

Modelling conventions:

* JavaScript numbers are modelled as `ℚ`.  The transcendental library
  functions (`Math.exp`, `Math.sin`, `Math.cos`, `Math.sqrt`, `Math.floor`,
  `Math.PI`) and the random source (`Math.random`) are passed as explicit
  function/stream parameters, so every definition stays executable; a random
  source is a stream `ℕ → ℚ` and each sequential `Math.random()` call reads
  the next index.  Only the claim about `calculateASITime` (C7), which is an
  identity of real `exp`/`log`, is stated over `ℝ` with `Real.exp`/`Real.log`.
* Drawing on the 2d context is modelled as the list of geometric primitives
  issued (`CanvasOp`); style settings (colors, gradients, dash patterns,
  line widths) are not recorded.  A missing drawing context is `Option.none`.
* A React effect with a dependency array re-runs exactly when the dependency
  value differs from the one seen at the previous render; this is modelled by
  threading the last-seen dependency value through the render steps.
-/

/-! ## ASISimulator: parameters, metrics, updateMetrics -/

/-- The `SimulationParameters` state of `ASISimulator.tsx`. -/
structure SimulationParameters where
  alpha : ℚ
  delta : ℚ
  agentCount : ℚ
  ethicalThreshold : ℚ
  resonanceStrength : ℚ
  parameterN : ℚ
  deriving DecidableEq, Repr

/-- The initial slider parameters (`useState` initialiser in `ASISimulator.tsx`). -/
def initialParameters : SimulationParameters :=
  { alpha := 0.44
    delta := 0.17
    agentCount := 13
    ethicalThreshold := 0.8
    resonanceStrength := 1.2
    parameterN := 13 }

/-- The `metrics` state of `ASISimulator.tsx`. -/
structure Metrics where
  intelligence : ℚ
  hypotheses : ℚ
  resonancePoints : ℚ
  ethicalScore : ℚ
  complexity : String
  asiProgress : ℚ
  deriving DecidableEq, Repr

/-- The initial metrics (`useState` initialiser in `ASISimulator.tsx`); the same
record is assigned by `toggleSimulation` (when starting) and `resetSimulation`. -/
def initialMetrics : Metrics :=
  { intelligence := 1.0
    hypotheses := 100
    resonancePoints := 0
    ethicalScore := 0.95
    complexity := "O(n²)"
    asiProgress := 0 }

/-- `updateMetrics` from `ASISimulator.tsx` (lines 84–110).

`exp`, `sin`, `floorF` stand for `Math.exp`, `Math.sin`, `Math.floor`; `rand`
is the value of the single `Math.random()` call in the ethical-score line;
`t` is the captured `simulationTime`; `prev` is the previous metrics record. -/
def updateMetrics (exp sin floorF : ℚ → ℚ) (rand t : ℚ)
    (p : SimulationParameters) (prev : Metrics) : Metrics :=
  let intelligence := 1.0 + (0.5 * 100 / p.alpha) * (exp (p.alpha * t) - 1)
  let hypotheses := 100 * exp (p.alpha * t)
  let resonancePoints :=
    floorF (p.agentCount * p.agentCount * p.resonanceStrength * sin (t * 0.5)
      + p.agentCount)
  let asiProgress := min 100 (max 0 ((intelligence - 100) / 900 * 100))
  { intelligence := min intelligence 10000
    hypotheses := min hypotheses 1000000
    resonancePoints := max 0 resonancePoints
    ethicalScore := max 0.5 (prev.ethicalScore + (rand - 0.5) * 0.02)
    complexity := "O(n²)"
    asiProgress := asiProgress }

/-- The top-level simulator state touched by `toggleSimulation` and
`resetSimulation`. -/
structure ASIState where
  isRunning : Bool
  simulationTime : ℚ
  metrics : Metrics
  deriving DecidableEq, Repr

/-- The initial `ASISimulator` state (`isRunning` false, time 0, initial metrics). -/
def initialState : ASIState :=
  { isRunning := false, simulationTime := 0, metrics := initialMetrics }

/-- `toggleSimulation` from `ASISimulator.tsx`: flips `isRunning`; when the
simulation was stopped (so it is being started) it also zeroes the clock and
restores the initial metrics. -/
def toggleSimulation (s : ASIState) : ASIState :=
  if s.isRunning then
    { s with isRunning := false }
  else
    { isRunning := true, simulationTime := 0, metrics := initialMetrics }

/-- `resetSimulation` from `ASISimulator.tsx`: stops the simulation, zeroes the
clock and restores the initial metrics. -/
def resetSimulation (_s : ASIState) : ASIState :=
  { isRunning := false, simulationTime := 0, metrics := initialMetrics }

/-- The bounds asserted by claim C8. -/
def MetricsBounded (m : Metrics) : Prop :=
  m.intelligence ≤ 10000 ∧ m.hypotheses ≤ 1000000 ∧ 0 ≤ m.resonancePoints ∧
    (0.5 : ℚ) ≤ m.ethicalScore ∧ 0 ≤ m.asiProgress ∧ m.asiProgress ≤ 100

instance (m : Metrics) : Decidable (MetricsBounded m) := by
  unfold MetricsBounded; infer_instance

/-! ## Canvas drawing model -/

/-- A drawing primitive issued on the 2d context.  Only the geometry is
recorded: `clearRect`/`fillRect` cover the whole canvas, `strokeArc`/`fillArc`
are full circles at a centre and radius, `line` is a `moveTo`/`lineTo`/`stroke`
segment, and `text` is a `fillText` at a position. -/
inductive CanvasOp where
  | clearRect (w h : ℚ)
  | fillRect (w h : ℚ)
  | strokeArc (x y r : ℚ)
  | fillArc (x y r : ℚ)
  | line (x1 y1 x2 y2 : ℚ)
  | text (x y : ℚ)
  deriving DecidableEq, Repr

/-- JavaScript's `%` on the non-negative operands used by the animation code:
`x - y * ⌊x / y⌋`. -/
def jsMod (x y : ℚ) : ℚ := x - y * (⌊x / y⌋ : ℤ)

/-! ## ResonanceVisualization (src/unnamed/part_000) -/

/-- A resonance point (`ResonancePoint` interface in part_000). -/
structure ResonancePoint where
  x : ℚ
  y : ℚ
  intensity : ℚ
  phase : ℚ
  id : ℕ
  deriving DecidableEq, Repr

/-- The point-generation effect body of `ResonanceVisualization` (part_000,
lines 32–45): point `i` draws four sequential `Math.random()` values for
`x`, `y`, `intensity` and `phase`.  `pi` stands for `Math.PI`. -/
def generateResonancePoints (pi : ℚ) (rnd : ℕ → ℚ) (n : ℕ) : List ResonancePoint :=
  (List.range n).map fun i =>
    { x := rnd (4 * i) * 800
      y := rnd (4 * i + 1) * 400
      intensity := 0.5 + rnd (4 * i + 2) * 0.5
      phase := rnd (4 * i + 3) * pi * 2
      id := i }

/-- One render of a regeneration effect with dependency array `[count]`: the
stored array is rebuilt by `gen count` exactly when `count` differs from the
dependency value seen at the previous render (`none` before the first render,
so the effect also runs on mount). -/
def regenStep (gen : ℕ → List α) (count : ℕ) (s : Option ℕ × List α) :
    Option ℕ × List α :=
  if s.1 = some count then s else (some count, gen count)

/-- A sequence of renders with the successive values of the count prop. -/
def runRenders (gen : ℕ → List α) (counts : List ℕ) (s : Option ℕ × List α) :
    Option ℕ × List α :=
  counts.foldl (fun acc c => regenStep gen c acc) s

/-- The mutable state of the `ResonanceVisualization` animation loop:
`resonancePointsRef` and `timeRef`. -/
structure RVAnimState where
  points : List ResonancePoint
  time : ℚ
  deriving DecidableEq, Repr

/-- The inner `forEach` of `animate` in part_000 (lines 100–134): connections
from `point` (at index `i`) to every later point within distance 150, with an
energy particle when the connection is strong.  `sqrt` stands for `Math.sqrt`. -/
def rvConnectionOps (sqrt : ℚ → ℚ) (t : ℚ) (points : List ResonancePoint)
    (i : ℕ) (point : ResonancePoint) : List CanvasOp :=
  points.enum.flatMap fun jp =>
    if i ≥ jp.1 then []
    else
      let dx := jp.2.x - point.x
      let dy := jp.2.y - point.y
      let distance := sqrt (dx * dx + dy * dy)
      if distance < 150 then
        let connectionStrength := (150 - distance) / 150
        CanvasOp.line point.x point.y jp.2.x jp.2.y ::
          (if connectionStrength > 0.5 then
            let particlePos := jsMod (t * 0.5) 1
            [CanvasOp.fillArc (point.x + dx * particlePos)
              (point.y + dy * particlePos) 2]
          else [])
      else []

/-- The per-point body of `animate` in part_000 (lines 73–135): three expanding
resonance waves, the point core, then the connections.  `sin` stands for
`Math.sin`. -/
def rvPointOps (sin sqrt : ℚ → ℚ) (t : ℚ) (points : List ResonancePoint)
    (i : ℕ) (point : ResonancePoint) : List CanvasOp :=
  let currentIntensity := point.intensity * (1 + 0.3 * sin (t * 2 + point.phase))
  ((List.range 3).map fun wave =>
    CanvasOp.strokeArc point.x point.y (jsMod (t * 50 + wave * 30) 150)) ++
  CanvasOp.fillArc point.x point.y (8 + currentIntensity * 5) ::
    rvConnectionOps sqrt t points i point

/-- `animate` from part_000 (lines 54–146).  Returns the new ref state, the
drawing primitives issued, and whether a further animation frame was
scheduled (`requestAnimationFrame`). -/
def rvAnimate (sin sqrt : ℚ → ℚ) (w h : ℚ) (isRunning : Bool) (s : RVAnimState) :
    RVAnimState × List CanvasOp × Bool :=
  if !isRunning then (s, [], false)
  else
    let t := s.time + 0.05
    let ops :=
      CanvasOp.clearRect w h :: CanvasOp.fillRect w h ::
        ((s.points.enum.flatMap fun ip => rvPointOps sin sqrt t s.points ip.1 ip.2) ++
          [CanvasOp.text 20 30, CanvasOp.text 20 50, CanvasOp.text 20 70])
    ({ s with time := t }, ops, true)

/-- The static branch of the canvas effect in part_000 (lines 150–171). -/
def rvStaticOps (w h : ℚ) (points : List ResonancePoint) : List CanvasOp :=
  CanvasOp.clearRect w h ::
    ((points.map fun p => CanvasOp.fillArc p.x p.y 6) ++
      [CanvasOp.text 20 30, CanvasOp.text 20 50])

/-- The canvas effect of part_000 (lines 47–178).  `ctx` is the result of the
`canvasRef.current` / `getContext` chain: `none` models a missing canvas or a
missing 2d context, on which the effect returns before touching anything.
Otherwise it either schedules `animate` (when running) or draws the static
state.  The third component records whether an animation frame was scheduled. -/
def rvEffect (ctx : Option Unit) (w h : ℚ) (isRunning : Bool) (s : RVAnimState) :
    RVAnimState × List CanvasOp × Bool :=
  match ctx with
  | none => (s, [], false)
  | some _ =>
    if isRunning then (s, [], true)
    else (s, rvStaticOps w h s.points, false)

/-! ## AgentNetwork (src/unnamed/part_001) -/

/-- An agent (`Agent` interface in part_001). -/
structure Agent where
  x : ℚ
  y : ℚ
  intelligence : ℚ
  activity : ℚ
  connections : List ℕ
  id : ℕ
  phase : ℚ
  deriving DecidableEq, Repr

/-- The wrapped index distance of part_001, line 47–48:
`Math.min(Math.abs(i - j), agentCount - Math.abs(i - j))`. -/
def wrappedDistance (n i j : ℕ) : ℕ := min (Nat.dist i j) (n - Nat.dist i j)

/-- The connection list built for agent `i` (part_001, lines 44–53): every
`j ≠ i` in `[0, n)` whose wrapped distance from `i` is at most 2, in
increasing order of `j`. -/
def connectionsFor (n i : ℕ) : List ℕ :=
  (List.range n).filter fun j => decide (i ≠ j ∧ wrappedDistance n i j ≤ 2)

/-- The agent-generation effect body of `AgentNetwork` (part_001, lines 31–67):
agent `i` sits on a circle of radius 150 around (400, 200) at angle
`(i / agentCount) · 2π`, and draws three sequential `Math.random()` values for
`intelligence`, `activity` and `phase`.  `cos`, `sin`, `pi` stand for
`Math.cos`, `Math.sin`, `Math.PI`. -/
def generateAgents (cos sin : ℚ → ℚ) (pi : ℚ) (rnd : ℕ → ℚ) (n : ℕ) : List Agent :=
  (List.range n).map fun (i : ℕ) =>
    let angle := ((i : ℚ) / (n : ℚ)) * pi * 2
    { x := 400 + cos angle * 150
      y := 200 + sin angle * 150
      intelligence := 1.0 + rnd (3 * i) * 0.5
      activity := rnd (3 * i + 1)
      connections := connectionsFor n i
      id := i
      phase := rnd (3 * i + 2) * pi * 2 }

/-- The mutable state of the `AgentNetwork` animation loop: `agentsRef` and
`timeRef`. -/
structure ANAnimState where
  agents : List Agent
  time : ℚ
  deriving DecidableEq, Repr

/-- The per-frame mutation of `animate` in part_001 (lines 82–85): each agent's
`intelligence` and `activity` are overwritten (one fresh `Math.random()` per
agent, read at the agent's position `k` in the iteration); nothing else in the
agent record is touched. -/
def stepAgents (sin : ℚ → ℚ) (rnd : ℕ → ℚ) (intelligence t : ℚ) :
    ℕ → List Agent → List Agent
  | _, [] => []
  | k, a :: rest =>
    { a with
      intelligence := 1.0 + (intelligence - 1.0) * (0.8 + rnd k * 0.4)
      activity := 0.5 + 0.5 * sin (t * 2 + a.phase) } ::
      stepAgents sin rnd intelligence t (k + 1) rest

/-- The connection-drawing loop of `animate` in part_001 (lines 101–134) for the
agent at index `i`: each connection to a not-yet-drawn partner yields a line,
plus a data packet when the connection is strong. -/
def anConnectionOps (t : ℚ) (agents : List Agent) (i : ℕ) (agent : Agent) :
    List CanvasOp :=
  agent.connections.flatMap fun connectionId =>
    if connectionId < i then []
    else
      match agents[connectionId]? with
      | none => []
      | some connectedAgent =>
        let avgActivity := (agent.activity + connectedAgent.activity) / 2
        let connectionStrength :=
          avgActivity * min agent.intelligence connectedAgent.intelligence / 10
        CanvasOp.line agent.x agent.y connectedAgent.x connectedAgent.y ::
          (if connectionStrength > 0.3 then
            let packetPos := jsMod (t * 0.8 + (i : ℚ) * 0.3) 1
            [CanvasOp.fillArc (agent.x + (connectedAgent.x - agent.x) * packetPos)
              (agent.y + (connectedAgent.y - agent.y) * packetPos) 3]
          else [])

/-- The agent-drawing loop of `animate` in part_001 (lines 137–178): core disc,
intelligence ring when bright enough, the id label, and an activity pulse. -/
def anAgentOps (t : ℚ) (agent : Agent) : List CanvasOp :=
  let size := 8 + agent.intelligence * 3
  let brightness := agent.activity
  CanvasOp.fillArc agent.x agent.y size ::
    ((if agent.intelligence > 2 then [CanvasOp.strokeArc agent.x agent.y (size + 5)]
      else []) ++
      [CanvasOp.text agent.x (agent.y + 3)] ++
      (if brightness > 0.7 then
        [CanvasOp.strokeArc agent.x agent.y (size + 10 + jsMod (t * 30) 20)]
      else []))

/-- `animate` from part_001 (lines 76–196). -/
def anAnimate (sin : ℚ → ℚ) (rnd : ℕ → ℚ) (w h intelligence : ℚ)
    (isRunning : Bool) (s : ANAnimState) : ANAnimState × List CanvasOp × Bool :=
  if !isRunning then (s, [], false)
  else
    let t := s.time + 0.03
    let agents := stepAgents sin rnd intelligence t 0 s.agents
    let ops :=
      CanvasOp.clearRect w h :: CanvasOp.fillRect w h ::
        ((agents.enum.flatMap fun ia => anConnectionOps t agents ia.1 ia.2) ++
          (agents.flatMap fun a => anAgentOps t a) ++
          [CanvasOp.text 20 30, CanvasOp.text 20 50, CanvasOp.text 20 70,
            CanvasOp.text 20 90, CanvasOp.text 20 110])
    ({ agents := agents, time := t }, ops, true)

/-- The static connection drawing of part_001 (lines 205–219). -/
def anStaticConnectionOps (agents : List Agent) (i : ℕ) (agent : Agent) :
    List CanvasOp :=
  agent.connections.flatMap fun connectionId =>
    if connectionId < i then []
    else
      match agents[connectionId]? with
      | none => []
      | some connectedAgent =>
        [CanvasOp.line agent.x agent.y connectedAgent.x connectedAgent.y]

/-- The static branch of the canvas effect in part_001 (lines 200–241). -/
def anStaticOps (w h : ℚ) (agents : List Agent) : List CanvasOp :=
  CanvasOp.clearRect w h ::
    ((agents.enum.flatMap fun ia => anStaticConnectionOps agents ia.1 ia.2) ++
      (agents.flatMap fun a => [CanvasOp.fillArc a.x a.y 8, CanvasOp.text a.x (a.y + 3)]) ++
      [CanvasOp.text 20 30, CanvasOp.text 20 50])

/-- The canvas effect of part_001 (lines 69–248); as in `rvEffect`, `ctx = none`
models a missing canvas or drawing context. -/
def anEffect (ctx : Option Unit) (w h _intelligence : ℚ) (isRunning : Bool)
    (s : ANAnimState) : ANAnimState × List CanvasOp × Bool :=
  match ctx with
  | none => (s, [], false)
  | some _ =>
    if isRunning then (s, [], true)
    else (s, anStaticOps w h s.agents, false)

/-! ## IntelligenceGrowthChart (src/unnamed/part_002) -/

/-- One entry of `dataPointsRef` in part_002. -/
structure ChartPoint where
  time : ℚ
  intelligence : ℚ
  baseline : ℚ
  deriving DecidableEq, Repr

/-- `Math.max(...)` over a list, as used on the chart's data (all the values it
is applied to in part_002 are positive, so the 0 seed is exact). -/
def listMax (l : List ℚ) : ℚ := l.foldr max 0

/-- The grid of part_002 (lines 61–74): eleven vertical and eleven horizontal
lines across the padded drawing area. -/
def chartGridOps (w h : ℚ) : List CanvasOp :=
  (List.range 11).flatMap fun i =>
    let x := 40 + ((i : ℚ) / 10) * (w - 2 * 40)
    let y := 40 + ((i : ℚ) / 10) * (h - 2 * 40)
    [CanvasOp.line x 40 x (h - 40), CanvasOp.line 40 y (w - 40) y]

/-- The polyline of part_002 (lines 80–92 and 102–114): a `lineTo` chain over
the data points, rendered as the list of its segments.  `value` selects the
plotted field (`baseline` or `intelligence`). -/
def chartCurveOps (w h maxTime maxIntelligence : ℚ) (value : ChartPoint → ℚ)
    (pts : List ChartPoint) : List CanvasOp :=
  let coord := fun (p : ChartPoint) =>
    (40 + (p.time / maxTime) * (w - 2 * 40),
      h - 40 - (value p / maxIntelligence) * (h - 2 * 40))
  (pts.zip pts.tail).map fun pq =>
    CanvasOp.line (coord pq.1).1 (coord pq.1).2 (coord pq.2).1 (coord pq.2).2

/-- The canvas effect of `IntelligenceGrowthChart` (part_002, lines 24–140).
When the context is missing the effect returns before touching `dataPointsRef`.
Otherwise, while running, it appends the current data point (keeping the last
500), always clears the canvas, and — once at least two points exist — draws
the grid, the baseline and intelligence curves, and the four labels. -/
def chartEffect (ctx : Option Unit) (w h : ℚ) (isRunning : Bool)
    (simulationTime intelligence : ℚ) (dataPoints : List ChartPoint) :
    List ChartPoint × List CanvasOp :=
  match ctx with
  | none => (dataPoints, [])
  | some _ =>
    let pts :=
      if isRunning then
        let l := dataPoints ++
          [{ time := simulationTime, intelligence := intelligence,
             baseline := 1 + 0.01 * simulationTime }]
        if 500 < l.length then l.drop (l.length - 500) else l
      else dataPoints
    if pts.length < 2 then (pts, [CanvasOp.clearRect w h])
    else
      let maxTime := listMax (pts.map (·.time))
      let maxIntelligence := listMax (pts.map fun p => max p.intelligence p.baseline)
      (pts,
        CanvasOp.clearRect w h ::
          (chartGridOps w h ++
            chartCurveOps w h maxTime maxIntelligence (·.baseline) pts ++
            chartCurveOps w h maxTime maxIntelligence (·.intelligence) pts ++
            [CanvasOp.text (w - 60) (h - 10), CanvasOp.text 0 0,
              CanvasOp.text (w - 200) 30, CanvasOp.text (w - 200) 50]))

/-! ## The intelligence-growth formula and `calculateASITime` over ℝ (C7) -/

/-- The intelligence expression computed by `updateMetrics`
(`ASISimulator.tsx`, line 90), over ℝ with the real exponential:
`1.0 + (0.5 * 100 / alpha) * (Math.exp(alpha * t) - 1)`.  Note the hardcoded
`0.5` factor. -/
noncomputable def updateMetricsIntelligence (alpha t : ℝ) : ℝ :=
  1.0 + 0.5 * 100 / alpha * (Real.exp (alpha * t) - 1)

/-- The growth law the code documents for that same line: the comment directly
above it and the on-screen formula both read `I(t) = I₀ + (δQ₀/α)(e^(αt) - 1)`
with `I₀ = 1`, `Q₀ = 100`.  The code writes `0.5` where this has `delta`. -/
noncomputable def documentedIntelligence (alpha delta t : ℝ) : ℝ :=
  1.0 + delta * 100 / alpha * (Real.exp (alpha * t) - 1)

/-- `calculateASITime` from `ASISimulator.tsx` (lines 182–188):
`(1 / alpha) * Math.log((alpha * (I_ASI - I_0)) / (delta * Q_0) + 1)` with
`I_ASI = 1000`, `I_0 = 1.0`, `Q_0 = 100`. -/
noncomputable def calculateASITime (alpha delta : ℝ) : ℝ :=
  (1 / alpha) * Real.log (alpha * (1000 - 1.0) / (delta * 100) + 1)

/-! ## Concrete instances used in counterexamples and witnesses -/

/-- A random source that always returns 0. -/
def rndZero : ℕ → ℚ := fun _ => 0

/-- A random source that always returns 1/2 (also a legal `Math.random` value). -/
def rndHalf : ℕ → ℚ := fun _ => 1 / 2

/-- A concrete rational stand-in for `Math.cos` (its quadratic Taylor profile),
used where a counterexample must fix the trigonometric parameter. -/
def cosQ : ℚ → ℚ := fun x => 1 - x ^ 2 / 2

/-- A concrete rational stand-in for `Math.sin`. -/
def sinQ : ℚ → ℚ := fun x => x

/-- A concrete rational stand-in for `Math.PI`. -/
def piQ : ℚ := 355 / 113

/-! ## Helper lemmas -/

/-- A regeneration render records the count it saw. -/
theorem regenStep_fst (gen : ℕ → List α) (c : ℕ) (s : Option ℕ × List α) :
    (regenStep gen c s).1 = some c := by
  unfold regenStep
  split
  · next h => rw [h]
  · rfl

/-- A regeneration render preserves the invariant that the stored array's
length is the recorded count. -/
theorem regenStep_inv (gen : ℕ → List α) (hgen : ∀ m, (gen m).length = m)
    (c : ℕ) (s : Option ℕ × List α) (hs : ∀ m, s.1 = some m → s.2.length = m) :
    ∀ m, (regenStep gen c s).1 = some m → (regenStep gen c s).2.length = m := by
  unfold regenStep
  split
  · exact hs
  · intro m hm
    simp only at hm
    cases hm
    exact hgen c

/-- Any render sequence preserves the length-matches-recorded-count invariant. -/
theorem runRenders_inv (gen : ℕ → List α) (hgen : ∀ m, (gen m).length = m)
    (counts : List ℕ) (s : Option ℕ × List α)
    (hs : ∀ m, s.1 = some m → s.2.length = m) :
    ∀ m, (runRenders gen counts s).1 = some m →
      (runRenders gen counts s).2.length = m := by
  induction counts generalizing s with
  | nil => exact hs
  | cons c rest ih =>
    intro m hm
    rw [runRenders, List.foldl_cons] at hm ⊢
    exact ih (regenStep gen c s) (regenStep_inv gen hgen c s hs) m hm

/-- After a render sequence, the recorded count is the last count rendered. -/
theorem runRenders_append_last (gen : ℕ → List α) (counts : List ℕ) (n : ℕ)
    (s : Option ℕ × List α) :
    (runRenders gen (counts ++ [n]) s).1 = some n := by
  unfold runRenders
  rw [List.foldl_append, List.foldl_cons, List.foldl_nil]
  exact regenStep_fst gen n _

/-- Starting from the mount state, after any render sequence the stored array's
length equals the last rendered count. -/
theorem runRenders_final_length (gen : ℕ → List α) (hgen : ∀ m, (gen m).length = m)
    (counts : List ℕ) (n : ℕ) :
    (runRenders gen (counts ++ [n]) (none, [])).2.length = n := by
  apply runRenders_inv gen hgen (counts ++ [n]) (none, []) (by intro m hm; cases hm)
  exact runRenders_append_last gen counts n (none, [])

/-- The generation loop of part_000 pushes one point per index below `n`. -/
theorem generateResonancePoints_length (pi : ℚ) (rnd : ℕ → ℚ) (n : ℕ) :
    (generateResonancePoints pi rnd n).length = n := by
  simp [generateResonancePoints]

/-- The generation loop of part_001 pushes one agent per index below `n`. -/
theorem generateAgents_length (cos sin : ℚ → ℚ) (pi : ℚ) (rnd : ℕ → ℚ) (n : ℕ) :
    (generateAgents cos sin pi rnd n).length = n := by
  simp [generateAgents]

/-- The per-frame agent mutation touches only `intelligence` and `activity`:
the positions survive unchanged. -/
theorem stepAgents_map_xy (sin : ℚ → ℚ) (rnd : ℕ → ℚ) (intelligence t : ℚ) :
    ∀ (k : ℕ) (l : List Agent),
      ((stepAgents sin rnd intelligence t k l).map fun a => (a.x, a.y)) =
        l.map fun a => (a.x, a.y)
  | _, [] => rfl
  | k, a :: rest => by
    simp only [stepAgents, List.map]
    rw [stepAgents_map_xy sin rnd intelligence t (k + 1) rest]

/-- Agent positions are a function of the index and count alone: any two random
sources generate agents at identical coordinates. -/
theorem generateAgents_xy_independent (cos sin : ℚ → ℚ) (pi : ℚ)
    (rnd rnd' : ℕ → ℚ) (n : ℕ) :
    ((generateAgents cos sin pi rnd n).map fun a => (a.x, a.y)) =
      ((generateAgents cos sin pi rnd' n).map fun a => (a.x, a.y)) := by
  simp [generateAgents, List.map_map, Function.comp]

/-- `a % n` for `a < 2n`, without the modulo. -/
theorem mod_two_n (n a : ℕ) (h : a < 2 * n) : a % n = if a < n then a else a - n := by
  split
  · exact Nat.mod_eq_of_lt (by assumption)
  · rw [Nat.mod_eq_sub_mod (by omega), Nat.mod_eq_of_lt (by omega)]

/-- Membership in the generated connection list. -/
theorem mem_connectionsFor {n i j : ℕ} :
    j ∈ connectionsFor n i ↔ j < n ∧ i ≠ j ∧ wrappedDistance n i j ≤ 2 := by
  simp [connectionsFor, List.mem_filter]

/-- The wrapped index distance is symmetric. -/
theorem wrappedDistance_comm (n i j : ℕ) :
    wrappedDistance n i j = wrappedDistance n j i := by
  unfold wrappedDistance
  rw [Nat.dist_comm]

/-- Rotating the circle by `-i` carries agent `i`'s neighbourhood onto the
neighbourhood of 0 (as a cardinality bijection on the index sets). -/
theorem card_conn_shift (n i : ℕ) (hn : 1 ≤ n) (hi : i < n) :
    ((Finset.range n).filter fun j => i ≠ j ∧ wrappedDistance n i j ≤ 2).card =
      ((Finset.range n).filter fun k => k ≠ 0 ∧ min k (n - k) ≤ 2).card := by
  apply Finset.card_nbij' (fun j => (j + (n - i)) % n) (fun k => (k + i) % n)
  · intro j hj
    simp only [Finset.mem_filter, Finset.mem_range] at hj ⊢
    obtain ⟨hjn, hne, hwd⟩ := hj
    have h2 : j + (n - i) < 2 * n := by omega
    rw [mod_two_n n _ h2]
    simp only [wrappedDistance, Nat.dist] at hwd
    refine ⟨by split <;> omega, by split <;> omega, by split <;> omega⟩
  · intro k hk
    simp only [Finset.mem_filter, Finset.mem_range] at hk ⊢
    obtain ⟨hkn, hne, hmin⟩ := hk
    have h2 : k + i < 2 * n := by omega
    rw [mod_two_n n _ h2]
    simp only [wrappedDistance, Nat.dist]
    refine ⟨by split <;> omega, by split <;> omega, by split <;> omega⟩
  · intro j hj
    simp only [Finset.mem_filter, Finset.mem_range] at hj
    have h2 : j + (n - i) < 2 * n := by omega
    rw [mod_two_n n _ h2]
    split
    · have h3 : j + (n - i) + i < 2 * n := by omega
      rw [mod_two_n n _ h3]
      split <;> omega
    · have h3 : j + (n - i) - n + i < 2 * n := by omega
      rw [mod_two_n n _ h3]
      split <;> omega
  · intro k hk
    simp only [Finset.mem_filter, Finset.mem_range] at hk
    have h2 : k + i < 2 * n := by omega
    rw [mod_two_n n _ h2]
    split
    · have h3 : k + i + (n - i) < 2 * n := by omega
      rw [mod_two_n n _ h3]
      split <;> omega
    · have h3 : k + i - n + (n - i) < 2 * n := by omega
      rw [mod_two_n n _ h3]
      split <;> omega

/-- The neighbourhood of 0 on an `n`-circle with wrapped distance at most 2 has
`min 4 (n - 1)` elements. -/
theorem card_shift (n : ℕ) (hn : 1 ≤ n) :
    ((Finset.range n).filter fun k => k ≠ 0 ∧ min k (n - k) ≤ 2).card =
      min 4 (n - 1) := by
  rcases le_or_lt n 5 with h | h
  · interval_cases n <;> decide
  · have hset : ((Finset.range n).filter fun k => k ≠ 0 ∧ min k (n - k) ≤ 2) =
        {1, 2, n - 2, n - 1} := by
      ext k
      simp only [Finset.mem_filter, Finset.mem_range, Finset.mem_insert,
        Finset.mem_singleton]
      omega
    rw [hset]
    rw [Finset.card_insert_of_not_mem (by simp; omega),
      Finset.card_insert_of_not_mem (by simp; omega),
      Finset.card_insert_of_not_mem (by simp; omega),
      Finset.card_singleton]
    omega

/-- The generated connection list of agent `i` has exactly `min 4 (n - 1)`
entries. -/
theorem connectionsFor_length (n i : ℕ) (hn : 1 ≤ n) (hi : i < n) :
    (connectionsFor n i).length = min 4 (n - 1) := by
  have hbridge : (connectionsFor n i).length =
      ((Finset.range n).filter fun j => i ≠ j ∧ wrappedDistance n i j ≤ 2).card := rfl
  rw [hbridge, card_conn_shift n i hn hi, card_shift n hn]

/-- The documented growth law really is inverted by `calculateASITime`: for
every `alpha`, `delta` in the slider ranges, the formula the code documents
(with the `delta` factor) evaluated at `t = calculateASITime alpha delta`
reaches the target intelligence 1000.  This supports reading the hardcoded
`0.5` in `updateMetrics` (line 90) as a slip. -/
theorem documentedIntelligence_at_calculateASITime (alpha delta : ℝ)
    (h1 : 0.01 ≤ alpha) (h2 : alpha ≤ 1.5) (h3 : 0.01 ≤ delta) (h4 : delta ≤ 0.5) :
    documentedIntelligence alpha delta (calculateASITime alpha delta) = 1000 := by
  have ha : (0 : ℝ) < alpha := by linarith
  have hd : (0 : ℝ) < delta := by linarith
  have hle : alpha ≤ 1.5 := h2
  have hle' : delta ≤ 0.5 := h4
  unfold documentedIntelligence calculateASITime
  rw [show alpha * (1 / alpha * Real.log (alpha * (1000 - 1.0) / (delta * 100) + 1)) =
      Real.log (alpha * (1000 - 1.0) / (delta * 100) + 1) by field_simp]
  rw [Real.exp_log (by positivity)]
  field_simp
  ring

/-! ## The claims -/

/-- C1: for every count `n`, each point-regeneration effect produces an array
of length exactly `n` — `resonancePointsRef` matches the `resonancePoints`
prop and `agentsRef` matches the `agentCount` prop — and, the effect
re-running exactly when its count dependency changes, after any render
history whose last count is `n` the stored array has length `n`. -/
theorem regenerated_array_length_eq_count (pi : ℚ) (rnd : ℕ → ℚ)
    (cos sin : ℚ → ℚ) (n : ℕ) (counts : List ℕ) :
    (generateResonancePoints pi rnd n).length = n ∧
    (generateAgents cos sin pi rnd n).length = n ∧
    (runRenders (generateResonancePoints pi rnd) (counts ++ [n])
      (none, [])).2.length = n ∧
    (runRenders (generateAgents cos sin pi rnd) (counts ++ [n])
      (none, [])).2.length = n :=
  ⟨generateResonancePoints_length pi rnd n, generateAgents_length cos sin pi rnd n,
    runRenders_final_length _ (generateResonancePoints_length pi rnd) counts n,
    runRenders_final_length _ (generateAgents_length cos sin pi rnd) counts n⟩

/-- C2 counterexample: two `updateMetrics` calls with identical simulation time
and identical parameters, differing only in the `Math.random()` draw of the
ethical-score line (0 versus 1), return different metrics records — the
metrics are not a function of time and parameters alone. -/
theorem updateMetrics_depends_on_randomness :
    updateMetrics id id id 0 0 initialParameters initialMetrics ≠
      updateMetrics id id id 1 0 initialParameters initialMetrics := by
  intro h
  have h2 := congrArg Metrics.ethicalScore h
  simp only [updateMetrics, initialParameters, initialMetrics] at h2
  norm_num at h2

/-- C2 amended: the `intelligence`, `hypotheses`, `resonancePoints` and
`asiProgress` fields computed by `updateMetrics` are functions of the
simulation time and the parameters alone — unchanged under any change of the
random draw and of the previous metrics — while `ethicalScore` performs a
random walk from its previous value. -/
theorem updateMetrics_deterministic_in_time_and_params
    (exp sin floorF : ℚ → ℚ) (rand rand' t : ℚ)
    (p : SimulationParameters) (prev prev' : Metrics) :
    (updateMetrics exp sin floorF rand t p prev).intelligence =
      (updateMetrics exp sin floorF rand' t p prev').intelligence ∧
    (updateMetrics exp sin floorF rand t p prev).hypotheses =
      (updateMetrics exp sin floorF rand' t p prev').hypotheses ∧
    (updateMetrics exp sin floorF rand t p prev).resonancePoints =
      (updateMetrics exp sin floorF rand' t p prev').resonancePoints ∧
    (updateMetrics exp sin floorF rand t p prev).asiProgress =
      (updateMetrics exp sin floorF rand' t p prev').asiProgress :=
  ⟨rfl, rfl, rfl, rfl⟩

/-- C3: with the drawing context absent, each of the three canvas effects
returns early: the ref state is unchanged (no time advance, no data point
pushed), no drawing primitive is issued, and no animation frame is
scheduled. -/
theorem effects_return_early_without_context
    (w h intelligence simulationTime intel2 : ℚ) (isRunning : Bool)
    (s1 : RVAnimState) (s2 : ANAnimState) (pts : List ChartPoint) :
    rvEffect none w h isRunning s1 = (s1, [], false) ∧
    anEffect none w h intelligence isRunning s2 = (s2, [], false) ∧
    chartEffect none w h isRunning simulationTime intel2 pts = (pts, []) :=
  ⟨rfl, rfl, rfl⟩

/-- C4: the per-frame `animate` step never moves a stored element: in
`ResonanceVisualization` the stored points are untouched, and in
`AgentNetwork` every agent's `x` and `y` coordinates survive the frame
unchanged (only `intelligence` and `activity` are recomputed, plus the shared
time counter). -/
theorem animate_preserves_point_positions (sin sqrt : ℚ → ℚ) (rnd : ℕ → ℚ)
    (w h intelligence : ℚ) (isRunning : Bool)
    (s1 : RVAnimState) (s2 : ANAnimState) :
    (rvAnimate sin sqrt w h isRunning s1).1.points = s1.points ∧
    ((anAnimate sin rnd w h intelligence isRunning s2).1.agents.map
      fun a => (a.x, a.y)) = s2.agents.map fun a => (a.x, a.y) := by
  cases isRunning <;> simp [rvAnimate, anAnimate, stepAgents_map_xy]

/-- C5: when `isRunning` is false, `animate` returns immediately in both
components: the ref state (including the time counter) is unchanged, nothing
is drawn, and no further animation frame is scheduled. -/
theorem animate_halts_when_not_running (sin sqrt : ℚ → ℚ) (rnd : ℕ → ℚ)
    (w h intelligence : ℚ) (s1 : RVAnimState) (s2 : ANAnimState) :
    rvAnimate sin sqrt w h false s1 = (s1, [], false) ∧
    anAnimate sin rnd w h intelligence false s2 = (s2, [], false) :=
  ⟨rfl, rfl⟩

/-- C6 counterexample: two distinct random sources generate agents at
identical positions — an agent's `x` and `y` are a deterministic circular
layout in the index and the count, not randomized as the claim states. -/
theorem agent_positions_ignore_random_source :
    rndZero ≠ rndHalf ∧
    ((generateAgents cosQ sinQ piQ rndZero 5).map fun a => (a.x, a.y)) =
      ((generateAgents cosQ sinQ piQ rndHalf 5).map fun a => (a.x, a.y)) := by
  constructor
  · intro h
    have h0 := congrFun h 0
    simp only [rndZero, rndHalf] at h0
    norm_num at h0
  · exact generateAgents_xy_independent cosQ sinQ piQ rndZero rndHalf 5

/-- C6 amended: every generated resonance point has randomized position and
phase (they change with the random source), and every generated agent has a
randomized phase; but agent positions are independent of the random source —
the same for any two streams — being the fixed circular layout. -/
theorem randomized_attributes_of_generated_elements :
    (∀ (cos sin : ℚ → ℚ) (pi : ℚ) (rnd rnd' : ℕ → ℚ) (n : ℕ),
      ((generateAgents cos sin pi rnd n).map fun a => (a.x, a.y)) =
        ((generateAgents cos sin pi rnd' n).map fun a => (a.x, a.y))) ∧
    (generateResonancePoints piQ rndZero 1).map ResonancePoint.x ≠
      (generateResonancePoints piQ rndHalf 1).map ResonancePoint.x ∧
    (generateResonancePoints piQ rndZero 1).map ResonancePoint.y ≠
      (generateResonancePoints piQ rndHalf 1).map ResonancePoint.y ∧
    (generateResonancePoints piQ rndZero 1).map ResonancePoint.phase ≠
      (generateResonancePoints piQ rndHalf 1).map ResonancePoint.phase ∧
    (generateAgents cosQ sinQ piQ rndZero 5).map Agent.phase ≠
      (generateAgents cosQ sinQ piQ rndHalf 5).map Agent.phase := by
  refine ⟨generateAgents_xy_independent, ?_, ?_, ?_, ?_⟩
  · intro h
    simp [generateResonancePoints, rndZero, rndHalf, piQ] at h
  · intro h
    simp [generateResonancePoints, rndZero, rndHalf, piQ] at h
  · intro h
    simp [generateResonancePoints, rndZero, rndHalf, piQ] at h
  · intro h
    simp only [generateAgents, List.range_succ, List.range_zero, List.map,
      List.nil_append, rndZero, rndHalf, piQ] at h
    norm_num at h

/-- C7: at the default sliders (`alpha = 0.44`, `delta = 0.17`) the
intelligence expression of `updateMetrics`, evaluated at
`t = calculateASITime`, equals `49967/17 ≈ 2939.2` — not the target
`I_ASI = 1000`: line 90 hardcodes the factor `0.5` where the formula the code
documents (and which `calculateASITime` inverts) has `delta`. -/
theorem updateMetricsIntelligence_misses_target :
    updateMetricsIntelligence 0.44 (calculateASITime 0.44 0.17) = 49967 / 17 ∧
    (49967 / 17 : ℝ) ≠ 1000 := by
  constructor
  · unfold updateMetricsIntelligence calculateASITime
    rw [show (0.44 : ℝ) * (1 / 0.44 * Real.log ((0.44 : ℝ) * (1000 - 1.0) / (0.17 * 100) + 1)) =
        Real.log ((0.44 : ℝ) * (1000 - 1.0) / (0.17 * 100) + 1) by ring_nf]
    rw [Real.exp_log (by norm_num)]
    norm_num
  · norm_num

/-- C8: starting from a bounded metrics record, `updateMetrics` keeps
intelligence at most 10000, hypotheses at most 1000000, resonance points
non-negative, ethical score at least 0.5 and ASI progress inside `[0, 100]`;
`toggleSimulation` and `resetSimulation` also leave the metrics bounded. -/
theorem metrics_remain_bounded (exp sin floorF : ℚ → ℚ) (rand t : ℚ)
    (p : SimulationParameters) (s : ASIState) (h : MetricsBounded s.metrics) :
    MetricsBounded (updateMetrics exp sin floorF rand t p s.metrics) ∧
    MetricsBounded (toggleSimulation s).metrics ∧
    MetricsBounded (resetSimulation s).metrics := by
  refine ⟨?_, ?_, ?_⟩
  · exact ⟨min_le_right _ _, min_le_right _ _, le_max_left _ _, le_max_left _ _,
      le_min (by norm_num) (le_max_left _ _), min_le_left _ _⟩
  · unfold toggleSimulation
    split
    · exact h
    · norm_num [MetricsBounded, initialMetrics]
  · norm_num [MetricsBounded, resetSimulation, initialMetrics]

/-- C8 witness: the bounds hold concretely from the initial state. -/
theorem metrics_remain_bounded_witness :
    MetricsBounded (updateMetrics id id id 0 0 initialParameters
      initialState.metrics) ∧
    MetricsBounded (toggleSimulation initialState).metrics ∧
    MetricsBounded (resetSimulation initialState).metrics :=
  metrics_remain_bounded id id id 0 0 initialParameters initialState
    (by norm_num [MetricsBounded, initialState, initialMetrics])

/-- C9: the generated agents carry exactly the connection lists
`connectionsFor`; those lists form a symmetric and irreflexive relation, and
every agent has exactly `min 4 (agentCount - 1)` connections — its wrapped
neighbours at index distance at most 2. -/
theorem agent_connections_symmetric_irreflexive_degree
    (cos sin : ℚ → ℚ) (pi : ℚ) (rnd : ℕ → ℚ) (n i j : ℕ)
    (hn : 1 ≤ n) (hi : i < n) (hj : j < n) :
    ((generateAgents cos sin pi rnd n).map Agent.connections) =
      (List.range n).map (connectionsFor n) ∧
    (j ∈ connectionsFor n i ↔ i ∈ connectionsFor n j) ∧
    i ∉ connectionsFor n i ∧
    (connectionsFor n i).length = min 4 (n - 1) := by
  refine ⟨?_, ?_, ?_, connectionsFor_length n i hn hi⟩
  · simp [generateAgents, List.map_map, Function.comp]
  · simp only [mem_connectionsFor]
    rw [wrappedDistance_comm]
    constructor
    · rintro ⟨_, h2, h3⟩
      exact ⟨hi, fun e => h2 e.symm, h3⟩
    · rintro ⟨_, h2, h3⟩
      exact ⟨hj, fun e => h2 e.symm, h3⟩
  · simp [mem_connectionsFor]

/-- C9 witness: the connection properties instantiated at six agents, for the
pair 0, 1. -/
theorem agent_connections_symmetric_irreflexive_degree_witness :
    ((generateAgents id id 3 rndZero 6).map Agent.connections) =
      (List.range 6).map (connectionsFor 6) ∧
    (1 ∈ connectionsFor 6 0 ↔ 0 ∈ connectionsFor 6 1) ∧
    0 ∉ connectionsFor 6 0 ∧
    (connectionsFor 6 0).length = min 4 (6 - 1) :=
  agent_connections_symmetric_irreflexive_degree id id 3 rndZero 6 0 1
    (by norm_num) (by norm_num) (by norm_num)
